import Mathlib

/-!
Verification of the core gameplay logic of the EduRunner repository: the
answer-shuffle / lane-assignment algorithm (`src/entities/Portal.ts`), the
crossing-resolution state machine (`src/Game.ts`), the score tracker
(`ScoreManager`), the question service response handling
(`src/services/QuestionService.ts`), the chat service busy flag
(`src/services/ChatService.ts`), and the player lane logic (`Player`).

Each TypeScript function is embedded as an executable Lean definition; random
draws (`Math.random`) and wall-clock reads (`Date.now`) are passed in as
explicit parameters, `localStorage` is modelled as the stored list of records.
-/

namespace EduRunner

/-! ## Portal entities and the answer shuffle (`src/entities/Portal.ts`) -/

/-- The logical fields of the `Portal` entity of `src/entities/Portal.ts`:
`answerText`, `isCorrect`, `laneIndex`, and the longitudinal position `z`
(set by `setPosition`; rendering fields are presentation only and omitted). -/
structure Portal where
  answerText : String
  isCorrect : Bool
  laneIndex : Nat
  z : ℚ
deriving Repr, DecidableEq

/-- The JS destructuring swap `[result[i], result[j]] = [result[j], result[i]]`
on a list: exchange the entries at positions `i` and `j` (identity when either
index is out of range, which the shuffle loop never produces). -/
def listSwap (l : List α) (i j : Nat) : List α :=
  match l.get? i, l.get? j with
  | some a, some b => (l.set i b).set j a
  | _, _ => l

/-- One iteration of the loop body of `PortalManager.shuffleAnswers`: swap
positions `i` and `j` of the answer list and remap the tracked correct index
(`if (correctIndex === i) newCorrectIndex = j; else if (correctIndex === j)
newCorrectIndex = i;`). -/
def fyStep (res : List String) (ci i j : Nat) : List String × Nat :=
  (listSwap res i j, if ci = i then j else if ci = j then i else ci)

/-- The Fisher-Yates loop of `PortalManager.shuffleAnswers`, running the loop
index `i` downward from its first argument to `1`; `js k` is the random draw
`Math.floor(Math.random() * (k + 1))` made when the loop index is `k`. -/
def fyLoop (js : Nat → Nat) : Nat → List String × Nat → List String × Nat
  | 0, st => st
  | i + 1, st => fyLoop js i (fyStep st.1 st.2 (i + 1) (js (i + 1)))

/-- `PortalManager.shuffleAnswers(answers, correctIndex)`: copy the answers,
run the Fisher-Yates loop from `answers.length - 1` down to `1`, and return the
permuted answers together with the remapped correct lane. -/
def shuffleAnswers (answers : List String) (correctIndex : Nat) (js : Nat → Nat) :
    List String × Nat :=
  fyLoop js (answers.length - 1) (answers, correctIndex)

/-- The logical content of `PortalManager.spawnPortalSet(question, zPosition)`:
shuffle the answers, then for lanes `i = 0, 1, 2` build a portal with the
`i`-th shuffled answer, `isCorrect := i === shuffled.correctLane`, lane index
`i`, and position `zPosition`. -/
def spawnPortalSet (answers : List String) (correctIndex : Nat) (js : Nat → Nat)
    (zPosition : ℚ) : List Portal :=
  let shuffled := shuffleAnswers answers correctIndex js
  (List.range 3).map fun i =>
    { answerText := shuffled.1.getD i ""
      isCorrect := i == shuffled.2
      laneIndex := i
      z := zPosition }

/-- Computation rule: on a 3-element list the shuffle is exactly the two loop
iterations `i = 2` then `i = 1`. -/
theorem shuffleAnswers_three (a b c : String) (ci : Nat) (js : Nat → Nat) :
    shuffleAnswers [a, b, c] ci js =
      fyStep (fyStep [a, b, c] ci 2 (js 2)).1 (fyStep [a, b, c] ci 2 (js 2)).2 1 (js 1) :=
  rfl

/-- Helper: after the two loop iterations the tracked correct lane is still in
`{0, 1, 2}`, for all in-range random draws. -/
theorem correctLane_lt_three (a b c : String) (ci j2 j1 : Nat)
    (hci : ci < 3) (h2 : j2 ≤ 2) (h1 : j1 ≤ 1) :
    (fyStep (fyStep [a, b, c] ci 2 j2).1 (fyStep [a, b, c] ci 2 j2).2 1 j1).2 < 3 := by
  simp only [fyStep]
  interval_cases ci <;> interval_cases j2 <;> interval_cases j1 <;> simp

/-- Helper: if the correct lane is in `{0, 1, 2}` then exactly one of the three
spawned portals carries `isCorrect = true`. -/
theorem filter_isCorrect_singleton (l : List String) (cl : Nat) (z : ℚ) (hcl : cl < 3) :
    (((List.range 3).map fun i =>
        ({ answerText := l.getD i "", isCorrect := i == cl, laneIndex := i, z := z } : Portal)).filter
      (fun p => p.isCorrect)).length = 1 := by
  interval_cases cl <;> simp [List.range_succ, List.filter]

/-- C1: for every call to `PortalManager.spawnPortalSet` with 3 answer strings
and a `correctIndex` in `{0, 1, 2}`, and for every outcome of the random
shuffle (every sequence of in-range draws), exactly one of the 3 returned
portals has `isCorrect == true`. -/
theorem spawnPortalSet_exactly_one_correct (answers : List String) (correctIndex : Nat)
    (js : Nat → Nat) (zPosition : ℚ) (hlen : answers.length = 3) (hci : correctIndex < 3)
    (hjs : ∀ k, 1 ≤ k → k ≤ 2 → js k ≤ k) :
    ((spawnPortalSet answers correctIndex js zPosition).filter
      (fun p => p.isCorrect)).length = 1 := by
  obtain ⟨a, b, c, rfl⟩ := List.length_eq_three.mp hlen
  have h2 : js 2 ≤ 2 := hjs 2 (by omega) (by omega)
  have h1 : js 1 ≤ 1 := hjs 1 (by omega) (by omega)
  have hcl : (shuffleAnswers [a, b, c] correctIndex js).2 < 3 := by
    rw [shuffleAnswers_three]
    exact correctLane_lt_three a b c correctIndex (js 2) (js 1) hci h2 h1
  simpa only [spawnPortalSet] using
    filter_isCorrect_singleton (shuffleAnswers [a, b, c] correctIndex js).1
      (shuffleAnswers [a, b, c] correctIndex js).2 zPosition hcl

/-- Witness for C1 at a concrete input: the science question about Mercury,
`correctIndex = 1`, with all random draws equal to 0. -/
theorem spawnPortalSet_exactly_one_correct_witness :
    ((spawnPortalSet ["Venus", "Mercury", "Mars"] 1 (fun _ => 0) 70).filter
      (fun p => p.isCorrect)).length = 1 :=
  spawnPortalSet_exactly_one_correct ["Venus", "Mercury", "Mars"] 1 (fun _ => 0) 70
    rfl (by omega) (fun k _ _ => Nat.zero_le k)

/-- Helper: the index remap of the two loop iterations round-trips, i.e. the
permuted list holds the original correct answer at the remapped index. -/
theorem round_trip_aux (a b c : String) (ci j2 j1 : Nat)
    (hci : ci < 3) (h2 : j2 ≤ 2) (h1 : j1 ≤ 1) :
    ((fyStep (fyStep [a, b, c] ci 2 j2).1 (fyStep [a, b, c] ci 2 j2).2 1 j1).1).getD
        ((fyStep (fyStep [a, b, c] ci 2 j2).1 (fyStep [a, b, c] ci 2 j2).2 1 j1).2) ""
      = [a, b, c].getD ci "" := by
  interval_cases ci <;> interval_cases j2 <;> interval_cases j1 <;>
    simp [fyStep, listSwap]

/-- C2: for every 3-answer list, every original `correctIndex` in `{0, 1, 2}`
and every sequence of in-range random draws, the `correctLane` returned by
`PortalManager.shuffleAnswers` is a valid index of the permuted list and the
entry there equals `answers[originalCorrectIndex]`. -/
theorem shuffleAnswers_round_trip (answers : List String) (correctIndex : Nat)
    (js : Nat → Nat) (hlen : answers.length = 3) (hci : correctIndex < 3)
    (hjs : ∀ k, 1 ≤ k → k ≤ 2 → js k ≤ k) :
    (shuffleAnswers answers correctIndex js).2 < 3 ∧
    (shuffleAnswers answers correctIndex js).1.getD
        ((shuffleAnswers answers correctIndex js).2) ""
      = answers.getD correctIndex "" := by
  obtain ⟨a, b, c, rfl⟩ := List.length_eq_three.mp hlen
  have h2 : js 2 ≤ 2 := hjs 2 (by omega) (by omega)
  have h1 : js 1 ≤ 1 := hjs 1 (by omega) (by omega)
  rw [shuffleAnswers_three]
  exact ⟨correctLane_lt_three a b c correctIndex (js 2) (js 1) hci h2 h1,
    round_trip_aux a b c correctIndex (js 2) (js 1) hci h2 h1⟩

/-- Witness for C2 at a concrete input: answers `["54", "56", "58"]`,
`correctIndex = 1`, draws `js 2 = 0`, `js 1 = 1`. -/
theorem shuffleAnswers_round_trip_witness :
    (shuffleAnswers ["54", "56", "58"] 1 (fun k => k - 1)).2 < 3 ∧
    (shuffleAnswers ["54", "56", "58"] 1 (fun k => k - 1)).1.getD
        ((shuffleAnswers ["54", "56", "58"] 1 (fun k => k - 1)).2) ""
      = ["54", "56", "58"].getD 1 "" :=
  shuffleAnswers_round_trip ["54", "56", "58"] 1 (fun k => k - 1)
    rfl (by omega) (fun k _ _ => Nat.sub_le k 1)

/-! ## Score manager (`ScoreManager` file) -/

/-- The `WrongAnswer` record of the score manager. -/
structure WrongAnswer where
  question : String
  yourAnswer : String
  correctAnswer : String
deriving Repr, DecidableEq

/-- The mutable per-session fields of the `ScoreManager` class. -/
structure ScoreState where
  currentScore : Nat
  totalQuestions : Nat
  answeredQuestions : Nat
  wrongAnswers : List WrongAnswer
  currentTopic : String
  currentDifficulty : String
deriving Repr, DecidableEq

/-- The field initializers of `ScoreManager` (score 0, no answers recorded,
empty topic, difficulty `'medium'`). -/
def ScoreState.init : ScoreState :=
  { currentScore := 0, totalQuestions := 0, answeredQuestions := 0,
    wrongAnswers := [], currentTopic := "", currentDifficulty := "medium" }

/-- `ScoreManager.startGame(topic, difficulty, questionCount)`. -/
def ScoreState.startGame (_ : ScoreState) (topic difficulty : String)
    (questionCount : Nat) : ScoreState :=
  { currentScore := 0, totalQuestions := questionCount, answeredQuestions := 0,
    wrongAnswers := [], currentTopic := topic, currentDifficulty := difficulty }

/-- `ScoreManager.addCorrect()`. -/
def ScoreState.addCorrect (s : ScoreState) : ScoreState :=
  { s with currentScore := s.currentScore + 1,
           answeredQuestions := s.answeredQuestions + 1 }

/-- `ScoreManager.addWrong(question, yourAnswer, correctAnswer)`: JS `push`
appends at the end of the array. -/
def ScoreState.addWrong (s : ScoreState) (question yourAnswer correctAnswer : String) :
    ScoreState :=
  { s with answeredQuestions := s.answeredQuestions + 1,
           wrongAnswers := s.wrongAnswers ++ [⟨question, yourAnswer, correctAnswer⟩] }

/-- JS `Math.round` on our rational model of JS numbers: round to nearest,
halves toward positive infinity. -/
def jsRound (q : ℚ) : ℤ := ⌊q + 1 / 2⌋

/-- `ScoreManager.getPercentage()`: 0 when nothing has been answered, else
`Math.round((currentScore / answeredQuestions) * 100)`. -/
def ScoreState.getPercentage (s : ScoreState) : ℤ :=
  if s.answeredQuestions = 0 then 0
  else jsRound ((s.currentScore : ℚ) / (s.answeredQuestions : ℚ) * 100)

/-- The calls a game session makes on the score manager. -/
inductive SMOp where
  | startGame (topic difficulty : String) (questionCount : Nat)
  | addCorrect
  | addWrong (question yourAnswer correctAnswer : String)
deriving Repr, DecidableEq

/-- Dispatch one score-manager call. -/
def applySMOp (s : ScoreState) : SMOp → ScoreState
  | .startGame t d n => s.startGame t d n
  | .addCorrect => s.addCorrect
  | .addWrong q y c => s.addWrong q y c

/-- C4: for every sequence of `startGame` / `addCorrect` / `addWrong` calls on
the score manager, `answeredQuestions == currentScore + wrongAnswers.length`
holds after every call (so in particular in the state the sequence reaches). -/
theorem scoreManager_answered_invariant (ops : List SMOp) :
    (ops.foldl applySMOp ScoreState.init).answeredQuestions
      = (ops.foldl applySMOp ScoreState.init).currentScore
        + (ops.foldl applySMOp ScoreState.init).wrongAnswers.length := by
  suffices h : ∀ s : ScoreState,
      s.answeredQuestions = s.currentScore + s.wrongAnswers.length →
      (ops.foldl applySMOp s).answeredQuestions
        = (ops.foldl applySMOp s).currentScore
          + (ops.foldl applySMOp s).wrongAnswers.length by
    exact h ScoreState.init rfl
  induction ops with
  | nil => exact fun s h => h
  | cons op ops ih =>
    intro s h
    refine ih (applySMOp s op) ?_
    cases op <;>
      simp [applySMOp, ScoreState.startGame, ScoreState.addCorrect, ScoreState.addWrong] <;>
      omega

/-- C5: for every reachable state of the score manager, `getPercentage()`
returns 0 when `answeredQuestions == 0` and
`round(currentScore / answeredQuestions * 100)` otherwise (with `round` the
mathematical round-half-up that `Math.round` implements). -/
theorem getPercentage_spec (s : ScoreState) :
    (s.answeredQuestions = 0 → s.getPercentage = 0) ∧
    (s.answeredQuestions ≠ 0 →
      s.getPercentage = round ((s.currentScore : ℚ) / (s.answeredQuestions : ℚ) * 100)) := by
  constructor
  · intro h
    simp [ScoreState.getPercentage, h]
  · intro h
    simp only [ScoreState.getPercentage, if_neg h, jsRound]
    rw [round_eq]

/-- Witness for C5: a fresh session returns 0, and a 2-of-3 session returns
`round(200/3) = 67`. -/
theorem getPercentage_spec_witness :
    ScoreState.init.getPercentage = 0 ∧
    ((ScoreState.init.startGame "science" "easy" 3).addCorrect.addCorrect.addWrong
        "q" "a" "b").getPercentage = 67 := by
  constructor
  · exact (getPercentage_spec ScoreState.init).1 rfl
  · rw [(getPercentage_spec ((ScoreState.init.startGame "science" "easy"
        3).addCorrect.addCorrect.addWrong "q" "a" "b")).2 (by decide)]
    rw [show ((ScoreState.init.startGame "science" "easy"
          3).addCorrect.addCorrect.addWrong "q" "a" "b").currentScore = 2 from rfl,
        show ((ScoreState.init.startGame "science" "easy"
          3).addCorrect.addCorrect.addWrong "q" "a" "b").answeredQuestions = 3 from rfl,
        round_eq, Int.floor_eq_iff]
    norm_num

/-! ## Persisted history (`ScoreManager.saveGame` / `loadAllScores`) -/

/-- The `GameScore` record persisted for each completed session. -/
structure GameScore where
  topic : String
  difficulty : String
  score : Nat
  totalQuestions : Nat
  percentage : ℤ
  timestamp : Nat
  wrongAnswers : List WrongAnswer
deriving Repr, DecidableEq

/-- The `MAX_RECENT_SCORES` constant. -/
def MAX_RECENT_SCORES : Nat := 20

/-- `ScoreManager.saveGame()`, with `localStorage` modelled as the stored list
of records (`loadAllScores()` result) and `Date.now()` passed in: build the
record, `unshift` it onto the history, and truncate the array to
`MAX_RECENT_SCORES` entries when it is longer. Returns the record and the new
stored history. -/
def ScoreState.saveGame (s : ScoreState) (now : Nat) (stored : List GameScore) :
    GameScore × List GameScore :=
  let gameScore : GameScore :=
    { topic := s.currentTopic, difficulty := s.currentDifficulty,
      score := s.currentScore, totalQuestions := s.totalQuestions,
      percentage := s.getPercentage, timestamp := now,
      wrongAnswers := s.wrongAnswers }
  let scores := gameScore :: stored
  (gameScore,
    if MAX_RECENT_SCORES < scores.length then scores.take MAX_RECENT_SCORES else scores)

/-- Helper: prepending one element and taking the old length drops exactly the
last element of a nonempty list. -/
theorem cons_take_length_eq (a : GameScore) (l : List GameScore) (h : l ≠ []) :
    (a :: l).take l.length = a :: l.dropLast := by
  cases l with
  | nil => exact absurd rfl h
  | cons b t => simp [List.take_succ_cons, List.dropLast_eq_take]

/-- C7: when the stored history already has `MAX_RECENT_SCORES = 20` records,
one more `saveGame` leaves exactly 20 records, the new record first and the
previously oldest record dropped; and `saveGame` always prepends the new
record, whatever the stored history is. -/
theorem saveGame_history_truncation (s : ScoreState) (now : Nat)
    (stored : List GameScore) (hlen : stored.length = MAX_RECENT_SCORES) :
    (s.saveGame now stored).2 = (s.saveGame now stored).1 :: stored.dropLast ∧
    (s.saveGame now stored).2.length = MAX_RECENT_SCORES ∧
    ∀ other : List GameScore, (s.saveGame now other).2.head? = some (s.saveGame now other).1 := by
  have hne : stored ≠ [] := by
    intro hnil
    rw [hnil] at hlen
    simp [MAX_RECENT_SCORES] at hlen
  refine ⟨?_, ?_, ?_⟩
  · simp only [ScoreState.saveGame]
    rw [if_pos (by simp only [List.length_cons, hlen]; exact Nat.lt_succ_self _), ← hlen]
    exact cons_take_length_eq _ stored hne
  · simp only [ScoreState.saveGame]
    rw [if_pos (by simp only [List.length_cons, hlen]; exact Nat.lt_succ_self _)]
    rw [List.length_take, List.length_cons, hlen]
    exact Nat.min_eq_left (Nat.le_succ _)
  · intro other
    simp only [ScoreState.saveGame]
    split
    · rw [List.head?_take, if_neg (by decide)]
      rfl
    · rfl

/-- Witness for C7: saving onto a full 20-record history at a concrete state. -/
theorem saveGame_history_truncation_witness :
    (ScoreState.init.saveGame 0
        (List.replicate 20 (⟨"math", "easy", 5, 10, 50, 0, []⟩ : GameScore))).2.length
      = MAX_RECENT_SCORES :=
  (saveGame_history_truncation ScoreState.init 0
      (List.replicate 20 (⟨"math", "easy", 5, 10, 50, 0, []⟩ : GameScore))
      (by simp [MAX_RECENT_SCORES])).2.1

/-! ## Game crossing resolution (`src/Game.ts`) -/

/-- The `Question` record of `src/services/QuestionService.ts`. -/
structure Question where
  question : String
  answers : List String
  correctIndex : Nat
deriving Repr, DecidableEq

/-- The game-state fields of `Game` that the crossing-resolution path touches
(the score manager singleton folded in as `scoreState`). -/
structure GState where
  scoreState : ScoreState
  currentQuestionIndex : Nat
  questions : List Question
  activePortalSet : List Portal
  waitingForNextQuestion : Bool
  playerZ : ℚ
  playerLane : Nat
deriving Repr, DecidableEq

/-- The JS for-loop assignments `if (...) selectedPortal = portal` keep the
last matching element. -/
def lastMatch (l : List Portal) (pred : Portal → Bool) : Option Portal :=
  l.foldl (fun acc p => if pred p then some p else acc) none

/-- The JS expression `selectedPortal?.answerText || 'None'`: `'None'` when the
portal is missing, and also when its answer text is the empty string (falsy). -/
def selAnswerText : Option Portal → String
  | none => "None"
  | some p => if p.answerText = "" then "None" else p.answerText

/-- The JS expression `correctPortal?.answerText || ''`. -/
def corAnswerText : Option Portal → String
  | none => ""
  | some p => if p.answerText = "" then "" else p.answerText

/-- The synchronous part of `Game.handlePortalPassed(playerLane)`: set the
freeze flag, find the selected and correct portals (the `reveal()` calls are
presentation only), and record a correct or wrong answer on the score manager.
The `setTimeout` body is `settleTimeout` below. -/
def handlePortalPassed (g : GState) (playerLane : Nat) : GState :=
  let g1 := { g with waitingForNextQuestion := true }
  let selectedPortal := lastMatch g1.activePortalSet (fun p => p.laneIndex == playerLane)
  let correctPortal := lastMatch g1.activePortalSet (fun p => p.isCorrect)
  let currentQuestion := g1.questions.getD g1.currentQuestionIndex ⟨"", [], 0⟩
  if (selectedPortal.map Portal.isCorrect).getD false then
    { g1 with scoreState := g1.scoreState.addCorrect }
  else
    { g1 with
        scoreState :=
          g1.scoreState.addWrong currentQuestion.question (selAnswerText selectedPortal)
            (corAnswerText correctPortal) }

/-- The `setTimeout` callback of `handlePortalPassed` that runs after the 1.5 s
settle delay: clear the resolved set, advance the question index, unset the
freeze flag (the end-of-game check then compares the index with the question
count). -/
def settleTimeout (g : GState) : GState :=
  { g with activePortalSet := [], currentQuestionIndex := g.currentQuestionIndex + 1,
           waitingForNextQuestion := false }

/-- `Game.checkPortalCollision()`: return immediately while the freeze flag is
set; otherwise resolve the crossing as soon as some active portal's `z` has
fallen more than 1 behind the player. -/
def checkPortalCollision (g : GState) : GState :=
  if g.waitingForNextQuestion then g
  else if g.activePortalSet.any (fun p => decide (p.z < g.playerZ - 1)) then
    handlePortalPassed g g.playerLane
  else g

/-- C3: while `waitingForNextQuestion` is true, no number of further tick
invocations of `checkPortalCollision` changes the score or the wrong-answer
list: the already-resolved portal set is never scored a second time. -/
theorem waiting_freezes_scoring (g : GState) (n : Nat)
    (h : g.waitingForNextQuestion = true) :
    (checkPortalCollision^[n] g).scoreState.currentScore = g.scoreState.currentScore ∧
    (checkPortalCollision^[n] g).scoreState.wrongAnswers = g.scoreState.wrongAnswers := by
  have hfix : checkPortalCollision g = g := by
    simp [checkPortalCollision, h]
  rw [Function.iterate_fixed hfix n]
  exact ⟨rfl, rfl⟩

/-- A concrete frozen mid-settle state: the crossing has been resolved, the
freeze flag is set, and the resolved portal is still just behind the player. -/
def frozenSample : GState :=
  { scoreState := ScoreState.init, currentQuestionIndex := 0, questions := [],
    activePortalSet := [⟨"56", true, 1, 0⟩], waitingForNextQuestion := true,
    playerZ := 5, playerLane := 1 }

/-- Witness for C3: the frozen mid-settle state is unchanged by five more
ticks. -/
theorem waiting_freezes_scoring_witness :
    (checkPortalCollision^[5] frozenSample).scoreState.currentScore
        = frozenSample.scoreState.currentScore ∧
    (checkPortalCollision^[5] frozenSample).scoreState.wrongAnswers
        = frozenSample.scoreState.wrongAnswers :=
  waiting_freezes_scoring frozenSample 5 rfl

/-! ## Player lane logic (`Player` entity) -/

/-- The lane-logic fields of the `Player` entity: `currentLane` (0 = left,
1 = center, 2 = right, initialized to 1) and the `isMoving` animation flag. -/
structure PlayerState where
  currentLane : Nat
  isMoving : Bool
deriving Repr, DecidableEq

/-- The `Player` field initializers: center lane, not moving. -/
def PlayerState.init : PlayerState := { currentLane := 1, isMoving := false }

/-- `Player.moveLeft()`: decrement the lane only when above lane 0 and not
mid-animation (`animateToLane` sets `isMoving`). -/
def PlayerState.moveLeft (p : PlayerState) : PlayerState :=
  if 0 < p.currentLane ∧ p.isMoving = false then
    { currentLane := p.currentLane - 1, isMoving := true }
  else p

/-- `Player.moveRight()`: increment the lane only when below lane 2 and not
mid-animation. -/
def PlayerState.moveRight (p : PlayerState) : PlayerState :=
  if p.currentLane < 2 ∧ p.isMoving = false then
    { currentLane := p.currentLane + 1, isMoving := true }
  else p

/-- The completion callback of `Player.animateToLane`: clear `isMoving`. -/
def PlayerState.animationEnd (p : PlayerState) : PlayerState :=
  { p with isMoving := false }

/-- `Player.resetPosition()`: back to the center lane, not moving. -/
def PlayerState.resetPosition (_ : PlayerState) : PlayerState :=
  { currentLane := 1, isMoving := false }

/-- The events that touch the player's lane. -/
inductive PlayerOp where
  | moveLeft
  | moveRight
  | animationEnd
  | resetPosition
deriving Repr, DecidableEq

/-- Dispatch one player event. -/
def applyPlayerOp (p : PlayerState) : PlayerOp → PlayerState
  | .moveLeft => p.moveLeft
  | .moveRight => p.moveRight
  | .animationEnd => p.animationEnd
  | .resetPosition => p.resetPosition

/-- Helper: no sequence of player events leaves the three lanes. -/
theorem playerLane_lt_three (ops : List PlayerOp) :
    (ops.foldl applyPlayerOp PlayerState.init).currentLane < 3 := by
  suffices h : ∀ p : PlayerState, p.currentLane < 3 →
      (ops.foldl applyPlayerOp p).currentLane < 3 by
    exact h PlayerState.init (by decide)
  induction ops with
  | nil => exact fun p h => h
  | cons op ops ih =>
    intro p h
    refine ih (applyPlayerOp p op) ?_
    cases op <;>
      simp only [applyPlayerOp, PlayerState.moveLeft, PlayerState.moveRight,
        PlayerState.animationEnd, PlayerState.resetPosition] <;>
      first
        | omega
        | (split <;> (try simp) <;> omega)

/-- Helper: the last-match scan of `handlePortalPassed` finds a portal in every
freshly spawned set for every lane in `{0, 1, 2}`. -/
theorem lastMatch_spawn_isSome (answers : List String) (correctIndex : Nat)
    (js : Nat → Nat) (z : ℚ) (lane : Nat) (hlane : lane < 3) :
    lastMatch (spawnPortalSet answers correctIndex js z)
      (fun p => p.laneIndex == lane) ≠ none := by
  interval_cases lane <;>
    simp [lastMatch, spawnPortalSet, List.range_succ, List.foldl]

/-- C9: every sequence of `moveLeft` / `moveRight` / animation-end /
`resetPosition` events keeps the player's lane in `{0, 1, 2}`; every spawned
portal set carries exactly the lane indices 0, 1, 2 in order; hence the
selected portal looked up by `handlePortalPassed` always exists and the defect
branch recording the answer text `'None'` for a missing portal is unreachable
in normal operation. -/
theorem selected_portal_always_exists (ops : List PlayerOp) (answers : List String)
    (correctIndex : Nat) (js : Nat → Nat) (z : ℚ) :
    (ops.foldl applyPlayerOp PlayerState.init).currentLane < 3 ∧
    (spawnPortalSet answers correctIndex js z).map Portal.laneIndex = [0, 1, 2] ∧
    lastMatch (spawnPortalSet answers correctIndex js z)
      (fun p => p.laneIndex == (ops.foldl applyPlayerOp PlayerState.init).currentLane)
      ≠ none :=
  ⟨playerLane_lt_three ops, rfl,
    lastMatch_spawn_isSome answers correctIndex js z _ (playerLane_lt_three ops)⟩

/-! ## Restart settings (`Game.startGame` / `Game.restartGame`) -/

/-- The session-settings fields of `Game`. -/
structure GameSettings where
  currentTopic : String
  currentDifficulty : String
  questionsPerGame : Nat
deriving Repr, DecidableEq

/-- The settings assignments at the top of
`Game.startGame(topic, difficulty, questionCount)`. -/
def startGameSettings (_ : GameSettings) (topic difficulty : String)
    (questionCount : Nat) : GameSettings :=
  { currentTopic := topic, currentDifficulty := difficulty,
    questionsPerGame := questionCount }

/-- A call to `startGame` that omits the `questionCount` argument: JS fills in
the declared default `questionCount = 10`. -/
def startGameSettingsDefault (g : GameSettings) (topic difficulty : String) :
    GameSettings :=
  startGameSettings g topic difficulty 10

/-- `Game.restartGame()`: `this.startGame(this.currentTopic,
this.currentDifficulty)` — the question count argument is omitted. -/
def restartGameSettings (g : GameSettings) : GameSettings :=
  startGameSettingsDefault g g.currentTopic g.currentDifficulty

/-- C10: for every completed session, `restartGame` starts a new game with the
same topic and difficulty but with the question count reset to the default 10,
regardless of the count the player chose for the previous session. -/
theorem restartGame_resets_question_count (g : GameSettings) :
    (restartGameSettings g).currentTopic = g.currentTopic ∧
    (restartGameSettings g).currentDifficulty = g.currentDifficulty ∧
    (restartGameSettings g).questionsPerGame = 10 :=
  ⟨rfl, rfl, rfl⟩

/-! ## Question service response handling (`src/services/QuestionService.ts`) -/

/-- A minimal JSON value model for the parsed body of the worker response. -/
inductive JVal where
  | null
  | bool (b : Bool)
  | num (q : ℚ)
  | str (s : String)
  | arr (items : List JVal)
  | obj (fields : List (String × JVal))

/-- JS property access `data.key` on our JSON model (`none` = `undefined`). -/
def JVal.getField : JVal → String → Option JVal
  | .obj fields, key => (fields.find? (fun f => f.1 == key)).map (fun f => f.2)
  | _, _ => none

/-- JS truthiness of a JSON value (arrays and objects are always truthy). -/
def JVal.truthy : JVal → Bool
  | .null => false
  | .bool b => b
  | .num q => !(q == 0)
  | .str s => !(s == "")
  | .arr _ => true
  | .obj _ => true

/-- JS `Array.isArray`. -/
def JVal.isArray : JVal → Bool
  | .arr _ => true
  | _ => false

/-- The items of an array value. -/
def JVal.asArr : JVal → Option (List JVal)
  | .arr items => some items
  | _ => none

/-- The response handling of `QuestionService.fetchQuestions`: on an ok HTTP
response with parsed body `data`, the check is exactly
`data.questions && Array.isArray(data.questions)`, and when it passes the raw
`data.questions` array is returned as the question batch; in every other case
(request failed, non-ok status, missing or non-array field) the offline
fallback bank is used. -/
def fetchQuestionsModel (ok : Bool) (data : JVal) (offline : List JVal) : List JVal :=
  if ok then
    match data.getField "questions" with
    | some q => if q.truthy && q.isArray then q.asArr.getD offline else offline
    | none => offline
  else offline

/-- Modelled from the spec: the per-item validation the spec describes — a
question object with exactly 3 answers and a correct index in `[0, 2]`. This
definition follows the spec sentence; it has no counterpart in
`QuestionService.fetchQuestions`, which performs no per-item check. -/
def specWellFormedQuestion (v : JVal) : Bool :=
  match v.getField "answers", v.getField "correctIndex" with
  | some (.arr xs), some (.num i) => xs.length == 3 && (decide (0 ≤ i) && decide (i ≤ 2))
  | _, _ => false

/-- A malformed question item: a single answer and a correct index of 7. -/
def badItem : JVal :=
  JVal.obj [("question", JVal.str "q1"), ("answers", JVal.arr [JVal.str "only one"]),
    ("correctIndex", JVal.num 7)]

/-- An ok response whose `questions` array contains only the malformed item. -/
def badResponse : JVal := JVal.obj [("questions", JVal.arr [badItem])]

/-- Counterexample to C6: the response body `badResponse` holds one malformed
question item (one answer, correct index 7), yet `fetchQuestions` returns that
batch instead of discarding it for the offline fallback (here the empty bank):
no per-item validation happens. -/
theorem fetchQuestions_accepts_malformed_item :
    specWellFormedQuestion badItem = false ∧
    fetchQuestionsModel true badResponse [] = [badItem] ∧
    fetchQuestionsModel true badResponse [] ≠ [] := by
  refine ⟨rfl, rfl, ?_⟩
  intro h
  simp [fetchQuestionsModel, badResponse, badItem, JVal.getField, JVal.truthy,
    JVal.isArray, JVal.asArr] at h

/-- C6 (amended): `fetchQuestions` validates only that the response carries a
`questions` field that is an array; the array is returned raw, without any
per-item check, and the offline fallback bank is used exactly when the request
failed, the status was not ok, or the field is missing or not an array. -/
theorem fetchQuestions_array_check_only (ok : Bool) (data : JVal) (offline : List JVal) :
    fetchQuestionsModel ok data offline =
      match ok, data.getField "questions" with
      | true, some (JVal.arr xs) => xs
      | _, _ => offline := by
  cases ok
  · rfl
  · simp only [fetchQuestionsModel, if_true]
    match h : data.getField "questions" with
    | none => rfl
    | some JVal.null => rfl
    | some (JVal.bool b) => cases b <;> rfl
    | some (JVal.num q) =>
        simp [JVal.truthy, JVal.isArray]
    | some (JVal.str s) =>
        simp [JVal.truthy, JVal.isArray]
    | some (JVal.arr xs) => rfl
    | some (JVal.obj fs) => rfl

/-! ## Chat service busy flag (`src/services/ChatService.ts`) -/

/-- The role of one chat message. -/
inductive ChatRole where
  | user
  | assistant
deriving Repr, DecidableEq

/-- The `ChatMessage` record of the chat service. -/
structure ChatMessage where
  role : ChatRole
  content : String
  timestamp : Nat
deriving Repr, DecidableEq

/-- The mutable fields of `ChatService` that `sendMessage` touches. -/
structure ChatState where
  conversationHistory : List ChatMessage
  isStreaming : Bool
deriving Repr, DecidableEq

/-- One decoded server-sent line of the chat stream: a `data:` line whose JSON
carries a `content` field, the terminator `data: [DONE]`, or an ignorable
line. -/
inductive SSEFrame where
  | content (s : String)
  | done
  | noise
deriving Repr, DecidableEq

/-- The outcome of the `fetch` call inside `sendMessage`. -/
inductive NetResult where
  | fetchFailed (msg : String)
  | httpError (msg : String)
  | stream (frames : List SSEFrame)
deriving Repr, DecidableEq

/-- Which callback `sendMessage` fired: `onError`, `onComplete`, or none (a
stream that ended without `[DONE]` and without content). -/
inductive SendOutcome where
  | errored (msg : String)
  | completed (fullResponse : String)
  | ended
deriving Repr, DecidableEq

/-- The chunk-reading loop of `sendMessage`: accumulate `content` fragments
until the `[DONE]` frame; returns the accumulated text and whether `[DONE]`
was seen. -/
def processFrames (acc : String) : List SSEFrame → String × Bool
  | [] => (acc, false)
  | SSEFrame.done :: _ => (acc, true)
  | SSEFrame.content s :: rest => processFrames (acc ++ s) rest
  | SSEFrame.noise :: rest => processFrames acc rest

/-- `ChatService.sendMessage`, with `Date.now()` and the network outcome passed
in. Returns the new service state, the callback fired, and whether a network
request was issued. The busy guard rejects immediately; otherwise the user
message is pushed, the request is made, and on any thrown error the catch
block pops the user message while the finally block clears `isStreaming`. -/
def sendMessage (st : ChatState) (message : String) (now : Nat) (net : NetResult) :
    ChatState × SendOutcome × Bool :=
  if st.isStreaming then
    (st, SendOutcome.errored "Already streaming a response", false)
  else
    let hist1 := st.conversationHistory ++ [⟨ChatRole.user, message, now⟩]
    match net with
    | NetResult.fetchFailed msg =>
        ({ conversationHistory := hist1.dropLast, isStreaming := false },
          SendOutcome.errored msg, true)
    | NetResult.httpError msg =>
        ({ conversationHistory := hist1.dropLast, isStreaming := false },
          SendOutcome.errored msg, true)
    | NetResult.stream frames =>
        let r := processFrames "" frames
        if r.2 then
          ({ conversationHistory := hist1 ++ [⟨ChatRole.assistant, r.1, now⟩],
              isStreaming := false },
            SendOutcome.completed r.1, true)
        else if r.1 = "" then
          ({ conversationHistory := hist1, isStreaming := false },
            SendOutcome.ended, true)
        else
          ({ conversationHistory := hist1 ++ [⟨ChatRole.assistant, r.1, now⟩],
              isStreaming := false },
            SendOutcome.completed r.1, true)

/-- C8: calling `sendMessage` while a previous exchange is still streaming
fails immediately through the `onError` callback, issues no network request,
appends nothing to the conversation history, and leaves the service state
untouched (nothing is queued for later). -/
theorem sendMessage_busy_rejected (st : ChatState) (message : String) (now : Nat)
    (net : NetResult) (h : st.isStreaming = true) :
    sendMessage st message now net
      = (st, SendOutcome.errored "Already streaming a response", false) := by
  simp [sendMessage, h]

/-- Witness for C8: a busy service with one message of history rejects a second
send untouched. -/
theorem sendMessage_busy_rejected_witness :
    sendMessage ⟨[⟨ChatRole.user, "hi", 3⟩], true⟩ "again" 9
        (NetResult.stream [SSEFrame.content "x", SSEFrame.done])
      = (⟨[⟨ChatRole.user, "hi", 3⟩], true⟩,
          SendOutcome.errored "Already streaming a response", false) :=
  sendMessage_busy_rejected ⟨[⟨ChatRole.user, "hi", 3⟩], true⟩ "again" 9
    (NetResult.stream [SSEFrame.content "x", SSEFrame.done]) rfl

end EduRunner
